import Mathlib

/-!
Shallow embedding of the shopware-store-mcp adapter.

The repository is a TypeScript MCP server that translates tool calls into
requests against a Shopware Store API.  Files contain several concatenated
revisions of the same module; definitions below are labelled with the file
(and revision) they embed.  JavaScript numbers are modelled as `Int`,
nullable/undefined values as `Option`, thrown exceptions as `Except`, and
the untyped upstream JSON responses as partially-optional record types.
-/

/-! ## JavaScript value helpers

`jsNullish a b` is `a ?? b` on nullable strings, `jsFalsy` is the `!x`
truthiness test (null, undefined and the empty string are falsy), `jsOr`
is `x || d`, and `jsOrInt` is the `x || d` fallback on numbers (where `0`
is falsy). -/

def jsNullish (a b : Option String) : Option String :=
  match a with
  | some s => some s
  | none => b

def jsFalsy (o : Option String) : Bool :=
  match o with
  | none => true
  | some s => s.isEmpty

def jsTruthyStr (o : Option String) : Bool :=
  !(jsFalsy o)

def jsOr (o : Option String) (d : String) : String :=
  match o with
  | none => d
  | some s => if s.isEmpty then d else s

def jsOrInt (o : Option Int) (d : Int) : Int :=
  match o with
  | none => d
  | some v => if v = 0 then d else v

def jsOrStrNull (o : Option String) : Option String :=
  match o with
  | none => none
  | some s => if s.isEmpty then none else some s

/-- Template-literal rendering of a possibly-undefined number:
`${x}` prints `undefined` for a missing value. -/
def optIntStr (o : Option Int) : String :=
  match o with
  | none => "undefined"
  | some v => toString v

/-- Template-literal rendering of a possibly-undefined string. -/
def optStrUndefined (o : Option String) : String :=
  match o with
  | none => "undefined"
  | some s => s

/-! ## The API client error shape (src/client.ts, `StoreApiClient.request`)

A non-ok HTTP response is thrown as
`Error("Store API Request failed: <status> <statusText> - <body>")`.
Handlers pattern-match on the substring "403" of that message. -/

structure HttpFailure where
  status : Nat
  statusText : String
  body : String
deriving DecidableEq, Repr

def failureMessage (f : HttpFailure) : String :=
  "Store API Request failed: " ++ toString f.status ++ " " ++ f.statusText ++ " - " ++ f.body

/-- Character-list prefix test (the building block of `String.includes`). -/
def charsPrefix : List Char → List Char → Bool
  | [], _ => true
  | _ :: _, [] => false
  | a :: as, b :: bs => a == b && charsPrefix as bs

/-- Character-list substring test, modelling JavaScript `String.includes`. -/
def charsContains (pat : List Char) : List Char → Bool
  | [] => charsPrefix pat []
  | c :: rest => charsPrefix pat (c :: rest) || charsContains pat rest

/-- The `error.message && error.message.includes("403")` test used by every
authenticated handler to recognise a 403 upstream response. -/
def contains403 (f : HttpFailure) : Bool :=
  charsContains ("403".data) (failureMessage f).data

/-- A tool handler either returns a result (with its `isError` flag, which is
`false` when the handler omits it) or lets an exception propagate. -/
inductive Outcome (α : Type) where
  | result : Bool → α → Outcome α
  | thrown : HttpFailure → Outcome α
deriving DecidableEq

/-! ## Product identifier resolution (src/client.ts, `resolveProductId`) -/

def isHexDigit (c : Char) : Bool :=
  (('0' ≤ c) && (c ≤ '9')) || (('a' ≤ c) && (c ≤ 'f')) || (('A' ≤ c) && (c ≤ 'F'))

/-- Consume exactly `n` hexadecimal characters, returning the rest. -/
def hexRun : Nat → List Char → Option (List Char)
  | 0, l => some l
  | _ + 1, [] => none
  | n + 1, c :: l => if isHexDigit c then hexRun n l else none

/-- Consume a single hyphen. -/
def dashThen : Option (List Char) → Option (List Char)
  | some ('-' :: l) => some l
  | _ => none

/-- The test `/^[0-9a-f]{8}-[0-9a-f]{4}-[0-9a-f]{4}-[0-9a-f]{4}-[0-9a-f]{12}$/i`. -/
def matchesUuid (s : String) : Bool :=
  let step1 := hexRun 8 s.data
  let step2 := (dashThen step1).bind (hexRun 4)
  let step3 := (dashThen step2).bind (hexRun 4)
  let step4 := (dashThen step3).bind (hexRun 4)
  let step5 := (dashThen step4).bind (hexRun 12)
  step5 == some []

/-- The test `/^[0-9a-f]{32}$/i`. -/
def matchesSimpleUuid (s : String) : Bool :=
  hexRun 32 s.data == some []

/-- The body of the search request issued for a non-UUID input. -/
structure ResolveRequest where
  filterType : String
  filterField : String
  filterValue : String
  limit : Int
deriving DecidableEq, Repr

structure IdElement where
  id : String
deriving DecidableEq, Repr

structure SearchIdResponse where
  elements : Option (List IdElement)
deriving DecidableEq, Repr

def resolveRequestFor (idOrSku : String) : ResolveRequest :=
  { filterType := "equals", filterField := "productNumber", filterValue := idOrSku, limit := 1 }

/-- `StoreApiClient.resolveProductId`.  The network is abstracted as the
`search` oracle; the second component of the result is the list of search
requests actually issued. -/
def resolveProductId (search : ResolveRequest → Except HttpFailure SearchIdResponse)
    (idOrSku : String) : Option String × List ResolveRequest :=
  if matchesUuid idOrSku || matchesSimpleUuid idOrSku then
    (some idOrSku, [])
  else
    let req := resolveRequestFor idOrSku
    match search req with
    | Except.error _ => (none, [req])
    | Except.ok resp =>
      match resp.elements with
      | some (e :: _) => (some e.id, [req])
      | some [] => (none, [req])
      | none => (none, [req])

/-! ## HTML stripping (src/tools/product.ts, `description.replace(/<[^>]*>?/gm, "")`)

The global replace deletes, from every `<`, all characters up to and
including the next `>` (or to the end of the string when no `>` follows,
because of the optional `>?`).  `stripAux` is that scanner: the flag says
whether we are inside a tag span. -/

def stripAux : Bool → List Char → List Char
  | _, [] => []
  | true, c :: rest => if c = '>' then stripAux false rest else stripAux true rest
  | false, c :: rest => if c = '<' then stripAux true rest else c :: stripAux false rest

def stripHtml (s : String) : String :=
  ⟨stripAux false s.data⟩

/-! ## Upstream product shapes (the `any`-typed JSON the handlers read) -/

/-- One `options`/`properties` entry with its group (optional chains flattened:
`o.group?.name` becomes `groupName` etc.). -/
structure OptionEntry where
  groupName : Option String
  groupTranslatedName : Option String
  name : Option String
  translatedName : Option String
deriving DecidableEq, Repr

/-- A product record as read by the handlers.  `translated?.name` is
flattened into `translatedName`, `calculatedPrice?.totalPrice` into
`calculatedPrice`, `manufacturer?.name` into `manufacturerName`. -/
structure RawProduct where
  id : String
  productNumber : Option String
  name : Option String
  translatedName : Option String
  parentId : Option String
  calculatedPrice : Option Int
  availableStock : Option Int
  ratingAverage : Option Int
  description : Option String
  manufacturerName : Option String
  properties : Option (List OptionEntry)
  options : Option (List OptionEntry)
deriving DecidableEq, Repr

/-- Response of the `search` endpoint (elements plus total). -/
structure SearchResponse where
  elements : Option (List RawProduct)
  total : Option Int
deriving DecidableEq, Repr

/-- Response of the `product` endpoint (used for parent backfill and detail). -/
structure ProductsResponse where
  elements : Option (List RawProduct)
deriving DecidableEq, Repr

/-! ## Variant parent-name backfill (shared by store_product_search and
store_product_listing; the two handlers carry textually identical code) -/

/-- `[...new Set(list)]`: deduplicate keeping first occurrences. -/
def dedupAux : List String → List String → List String
  | _, [] => []
  | seen, x :: rest =>
    if seen.contains x then dedupAux seen rest else x :: dedupAux (x :: seen) rest

def dedupFirst (l : List String) : List String :=
  dedupAux [] l

/-- The parent ids collected for elements with falsy `name`, falsy
`translated?.name` and a truthy `parentId`. -/
def parentIdsOf (els : List RawProduct) : List String :=
  dedupFirst
    ((els.filter (fun p => jsFalsy p.name && jsFalsy p.translatedName && jsTruthyStr p.parentId)).filterMap
      (fun p => p.parentId))

/-- The `parents` map: empty when no ids were collected, when the follow-up
fetch failed (its error is swallowed), or when the response has no elements. -/
def parentsFrom (parentIds : List String) (parentsResult : Except HttpFailure ProductsResponse) :
    List RawProduct :=
  if parentIds.isEmpty then []
  else
    match parentsResult with
    | Except.error _ => []
    | Except.ok pr => pr.elements.getD []

/-- `parents.get(pid)`: `Map.set` overwrites, so the binding that survives is
the last response element with that id. -/
def findLast? (parents : List RawProduct) (pid : String) : Option RawProduct :=
  parents.reverse.find? (fun q => q.id == pid)

/-- The per-item display name: `p.name ?? p.translated?.name`, replaced by the
parent name when falsy and a parent is registered, then `?? "Unknown"`. -/
def variantDisplayName (parents : List RawProduct) (p : RawProduct) : String :=
  let n0 := jsNullish p.name p.translatedName
  let n1 :=
    if jsFalsy n0 && jsTruthyStr p.parentId then
      match p.parentId with
      | some pid =>
        match findLast? parents pid with
        | some par => jsNullish par.name par.translatedName
        | none => n0
      | none => n0
    else n0
  n1.getD ("Unknown")

/-! ## store_product_search (src/tools/product.ts, first revision) -/

inductive SortKey where
  | priceAsc
  | priceDesc
  | nameAsc
  | nameDesc
  | rating
  | ratingDesc
  | ratingAsc
deriving DecidableEq, Repr

structure SearchArgs where
  term : String
  limit : Int
  page : Int
  sort : Option SortKey
  minPrice : Option Int
  maxPrice : Option Int
deriving DecidableEq, Repr

/-- The `order` field of the upstream request body (the sort switch). -/
def sortOrderParam : Option SortKey → Option String
  | none => none
  | some SortKey.priceAsc => some ("price-asc")
  | some SortKey.priceDesc => some ("price-desc")
  | some SortKey.nameAsc => some ("name-asc")
  | some SortKey.nameDesc => some ("name-desc")
  | some SortKey.rating => some ("ratingAverage-desc")
  | some SortKey.ratingDesc => some ("ratingAverage-desc")
  | some SortKey.ratingAsc => some ("ratingAverage-asc")

/-- The single price range filter, present only when a bound is given. -/
structure PriceFilter where
  gte : Option Int
  lte : Option Int
deriving DecidableEq, Repr

def priceFilterParam (args : SearchArgs) : Option PriceFilter :=
  if args.minPrice.isSome || args.maxPrice.isSome then
    some { gte := args.minPrice, lte := args.maxPrice }
  else none

/-- The upstream search request body built by the handler; note the clamp
`limit: Math.min(args.limit, 3)`. -/
structure SearchRequest where
  search : String
  limit : Int
  page : Int
  order : Option String
  filter : Option PriceFilter
deriving DecidableEq, Repr

def searchRequest (args : SearchArgs) : SearchRequest :=
  { search := args.term
    limit := min args.limit 3
    page := args.page
    order := sortOrderParam args.sort
    filter := priceFilterParam args }

/-- A reshaped product of the search payload (fields the claims concern). -/
structure OutProduct where
  id : String
  productNumber : Option String
  name : String
  price : Int
  stock : Int
  rating : Option Int
deriving DecidableEq, Repr

def mapProduct (parents : List RawProduct) (p : RawProduct) : OutProduct :=
  { id := p.id
    productNumber := p.productNumber
    name := variantDisplayName parents p
    price := jsOrInt p.calculatedPrice 0
    stock := p.availableStock.getD 0
    rating := p.ratingAverage }

/-- `a.rating ?? -1`, the key of the descending post-sort. -/
def ratingKey (o : Option Int) : Int :=
  o.getD (-1)

/-- Stable insertion sort by descending `rating ?? -1`; models the
`products.sort((a, b) => (b.rating ?? -1) - (a.rating ?? -1))` call (a stable
comparison sort). -/
def insertRatingDesc (x : OutProduct) : List OutProduct → List OutProduct
  | [] => [x]
  | y :: ys =>
    if ratingKey y.rating < ratingKey x.rating then x :: y :: ys
    else y :: insertRatingDesc x ys

def sortRatingDesc (l : List OutProduct) : List OutProduct :=
  l.foldl (fun acc x => insertRatingDesc x acc) []

/-- Whether `y` may stay in front of `x` under the ascending comparator
(null ratings always sink: the comparator returns 1 when `a` has no rating
and -1 when `b` has none). -/
def ratingLeAsc (y x : Option Int) : Bool :=
  match y, x with
  | none, none => true
  | none, some _ => false
  | some _, none => true
  | some s, some r => s ≤ r

def insertRatingAsc (x : OutProduct) : List OutProduct → List OutProduct
  | [] => [x]
  | y :: ys =>
    if ratingLeAsc y.rating x.rating then y :: insertRatingAsc x ys
    else x :: y :: ys

def sortRatingAsc (l : List OutProduct) : List OutProduct :=
  l.foldl (fun acc x => insertRatingAsc x acc) []

/-- The client-side post-sort applied for the rating sort keys. -/
def postSort (sort : Option SortKey) (products : List OutProduct) : List OutProduct :=
  match sort with
  | some SortKey.rating => sortRatingDesc products
  | some SortKey.ratingDesc => sortRatingDesc products
  | some SortKey.ratingAsc => sortRatingAsc products
  | _ => products

structure Pagination where
  total : Int
  page : Int
  limit : Int
  hasNextPage : Bool
deriving DecidableEq, Repr

inductive SearchBody where
  | message : String → SearchBody
  | page : List OutProduct → Pagination → SearchBody
deriving DecidableEq

/-- The store_product_search handler (first revision).  `searchResult` is the
outcome of the upstream search call, `parentsResult` the outcome of the
optional parent backfill call.  The handler has no try/catch, so a failing
search call propagates. -/
def store_product_search (args : SearchArgs)
    (searchResult : Except HttpFailure SearchResponse)
    (parentsResult : Except HttpFailure ProductsResponse) : Outcome SearchBody :=
  match searchResult with
  | Except.error f => Outcome.thrown f
  | Except.ok resp =>
    let els := resp.elements.getD []
    if resp.elements.isNone || els.isEmpty then
      Outcome.result false
        (SearchBody.message ("No products found for search term: \"" ++ args.term ++ "\""))
    else
      let parents := parentsFrom (parentIdsOf els) parentsResult
      let products := els.map (mapProduct parents)
      let sorted := postSort args.sort products
      Outcome.result false (SearchBody.page sorted
        { total := resp.total.getD (sorted.length : Int)
          page := args.page
          limit := args.limit
          hasNextPage := decide (resp.total.getD 0 > args.page * args.limit) })

/-- Projection onto the pagination object of a search payload. -/
def searchPag : Outcome SearchBody → Option Pagination
  | Outcome.result _ (SearchBody.page _ pg) => some pg
  | _ => none

/-! ## store_product_listing (src/tools/category.ts, in part_000) -/

/-- One element of the option string:
`group ? `${group}: ${option}` : option`.  A falsy group yields the raw
(possibly undefined) option value, which `Array.join` renders as "". -/
def optionEntryStr (o : OptionEntry) : Option String :=
  let group := jsNullish o.groupName o.groupTranslatedName
  let value := jsNullish o.name o.translatedName
  if jsTruthyStr group then some (group.getD ("") ++ ": " ++ optStrUndefined value)
  else value

/-- `Array.prototype.join(" | ")` renders null/undefined elements as "". -/
def joinPipe (l : List (Option String)) : String :=
  String.intercalate (" | ") (l.map (fun o => o.getD ""))

/-- `p.properties && p.properties.length > 0 ? p.properties : p.options`. -/
def chosenOpts (p : RawProduct) : Option (List OptionEntry) :=
  match p.properties with
  | some l => if l.length > 0 then some l else p.options
  | none => p.options

/-- One line of the store_product_listing text output. -/
def listingLine (parents : List RawProduct) (p : RawProduct) : String :=
  let name := variantDisplayName parents p
  let optionsStr := (chosenOpts p).map (fun l => joinPipe (l.map optionEntryStr))
  let fullName :=
    match optionsStr with
    | some s => if s.isEmpty then name else name ++ " ( " ++ s ++ " )"
    | none => name
  let priceStr :=
    match p.calculatedPrice with
    | some v => if v = 0 then ("N/A") else toString v
    | none => "N/A"
  let stockStr :=
    match p.availableStock with
    | some v => toString v
    | none => "Unknown"
  "- [" ++ fullName ++ "] (ID: " ++ p.id ++ ", SKU: " ++ optStrUndefined p.productNumber ++
    ") - Price: " ++ priceStr ++ " - Stock: " ++ stockStr

/-- The store_product_listing handler (part_000).  Its catch-all converts any
primary-call failure into an error-flagged text result; the parent backfill
failure is swallowed. -/
def store_product_listing (categoryId : String)
    (callResult : Except HttpFailure ProductsResponse)
    (parentsResult : Except HttpFailure ProductsResponse) : Outcome String :=
  match callResult with
  | Except.error _ =>
    Outcome.result true ("Failed to fetch products for category " ++ categoryId ++ ".")
  | Except.ok resp =>
    let els := resp.elements.getD []
    if resp.elements.isNone || els.isEmpty then
      Outcome.result false ("No products found in category " ++ categoryId ++ ".")
    else
      let parents := parentsFrom (parentIdsOf els) parentsResult
      Outcome.result false
        ("Products in category:\n" ++ String.intercalate ("\n") (els.map (listingLine parents)))

/-! ## store_product_detail (src/tools/product.ts, first revision)

The detail view takes `name: p.name ?? p.translated?.name` directly from the
fetched product: there is no parent fallback for the name here (nor in the
later revisions at lines 605-610). -/

structure DetailOut where
  id : String
  productNumber : Option String
  name : Option String
  price : Int
  manufacturer : Option String
  stock : Int
  rating : Option Int
  description : Option String
deriving DecidableEq, Repr

def productDetailOf (p : RawProduct) : DetailOut :=
  { id := p.id
    productNumber := p.productNumber
    name := jsNullish p.name p.translatedName
    price := jsOrInt p.calculatedPrice 0
    manufacturer := jsOrStrNull p.manufacturerName
    stock := p.availableStock.getD 0
    rating := p.ratingAverage
    description :=
      match p.description with
      | some d => if d.isEmpty then none else some (stripHtml d)
      | none => none }

inductive DetailBody where
  | message : String → DetailBody
  | detail : DetailOut → DetailBody
deriving DecidableEq

/-- The store_product_detail handler: resolve the id (SKU or UUID), fetch the
product, reshape.  No try/catch, so a failing fetch propagates. -/
def store_product_detail (search : ResolveRequest → Except HttpFailure SearchIdResponse)
    (productId : String)
    (fetchResult : Except HttpFailure ProductsResponse) : Outcome DetailBody :=
  match (resolveProductId search productId).1 with
  | none => Outcome.result true (DetailBody.message ("Product not found: " ++ productId))
  | some rid =>
    match fetchResult with
    | Except.error f => Outcome.thrown f
    | Except.ok resp =>
      match resp.elements.getD [] with
      | [] => Outcome.result true (DetailBody.message ("Product not found with ID: " ++ rid))
      | p :: _ => Outcome.result false (DetailBody.detail (productDetailOf p))

/-! ## Order tools -/

/-- An order as read by the handlers (`stateMachineState?.name` flattened to
`stateName`, `price?.totalPrice` to `priceTotal`). -/
structure RawOrder where
  id : String
  orderNumber : String
  orderDateTime : String
  stateName : Option String
  priceTotal : Option Int
deriving DecidableEq, Repr

structure OrdersObj where
  elements : Option (List RawOrder)
  total : Option Int
deriving DecidableEq, Repr

structure OrderListResponse where
  orders : Option OrdersObj
deriving DecidableEq, Repr

structure OrderOut where
  orderNumber : String
  date : String
  status : String
  total : Int
  id : String
deriving DecidableEq, Repr

inductive OrderListBody where
  | message : String → OrderListBody
  | page : List OrderOut → Pagination → OrderListBody
deriving DecidableEq

structure OrderListArgs where
  limit : Int
  page : Int
deriving DecidableEq, Repr

/-- The store_order_list handler (src/tools/order.ts, final revision).
`formatDate` abstracts `new Date(x).toLocaleDateString()`.  A 403 failure is
returned as a NON-error result with a log-in message; any other failure is
re-thrown. -/
def store_order_list (formatDate : String → String) (args : OrderListArgs)
    (callResult : Except HttpFailure OrderListResponse) : Outcome OrderListBody :=
  match callResult with
  | Except.error f =>
    if contains403 f then
      Outcome.result false (OrderListBody.message
        ("The user is currently NOT logged in. Please ask the user to log in to view their order history."))
    else Outcome.thrown f
  | Except.ok resp =>
    let ordersList := (resp.orders.bind (fun o => o.elements)).getD []
    if ordersList.isEmpty && args.page == 1 then
      Outcome.result false (OrderListBody.message ("No orders found for this customer."))
    else
      let orders := ordersList.map (fun o =>
        { orderNumber := o.orderNumber
          date := formatDate o.orderDateTime
          status := jsOr o.stateName ("Unknown")
          total := jsOrInt o.priceTotal 0
          id := o.id : OrderOut })
      Outcome.result false (OrderListBody.page orders
        { total := (resp.orders.bind (fun o => o.total)).getD (orders.length : Int)
          page := args.page
          limit := args.limit
          hasNextPage := decide ((resp.orders.bind (fun o => o.total)).getD 0 > args.page * args.limit) })

/-- Projection onto the pagination object of an order-list payload. -/
def orderPag : Outcome OrderListBody → Option Pagination
  | Outcome.result _ (OrderListBody.page _ pg) => some pg
  | _ => none

/-- An order as read by the part_001 revision: its line
`Total: ${o.price.totalPrice}` has no optional chain, so the success path is
only defined when the price object is present - the field is therefore plain
`Int` here (a response without it would throw a TypeError in the source). -/
structure RawOrderOld where
  orderNumber : String
  orderDateTime : String
  stateName : Option String
  priceTotal : Int
deriving DecidableEq, Repr

/-- The earlier store_order_list revision (part_001): its `orders` field is a
plain array and, crucially, its 403 branch returns `isError: true` with an
"Access Denied" text. -/
structure OrderListOldResponse where
  orders : Option (List RawOrderOld)
deriving DecidableEq, Repr

def store_order_list_old (formatDate : String → String)
    (callResult : Except HttpFailure OrderListOldResponse) : Outcome OrderListBody :=
  match callResult with
  | Except.error f =>
    if contains403 f then
      Outcome.result true (OrderListBody.message
        ("Access Denied: You must be logged in to view orders."))
    else Outcome.thrown f
  | Except.ok resp =>
    let list := resp.orders.getD []
    if resp.orders.isNone || list.isEmpty then
      Outcome.result false (OrderListBody.message ("No orders found for this customer."))
    else
      Outcome.result false (OrderListBody.message
        ("Your Orders:\n" ++ String.intercalate ("\n") (list.map (fun o =>
          "- Order #" ++ o.orderNumber ++ " (" ++ formatDate o.orderDateTime ++ ") - Status: " ++
            jsOr o.stateName ("Unknown") ++ " - Total: " ++ toString o.priceTotal))))

structure OrderCreateResponse where
  orderNumber : String
  id : String
deriving DecidableEq, Repr

/-- The store_order_create handler (src/tools/order.ts, final revision):
403 becomes a non-error log-in message, any other failure an error result. -/
def store_order_create (callResult : Except HttpFailure OrderCreateResponse) : Outcome String :=
  match callResult with
  | Except.ok resp =>
    Outcome.result false
      ("Success! Order placed. Order Number: " ++ resp.orderNumber ++ " (ID: " ++ resp.id ++ ")")
  | Except.error f =>
    if contains403 f then
      Outcome.result false
        ("The user is NOT logged in. You cannot place an order until the user logs in. Please ask them to log in.")
    else
      Outcome.result true
        ("Failed to place order. Ensure you have items in cart and are logged in. Error: " ++
          failureMessage f)

/-- The earlier store_order_create revision (part_001): a catch-all error
result with no 403 special case (`${error}` renders as "Error: <message>"). -/
def store_order_create_old (callResult : Except HttpFailure OrderCreateResponse) : Outcome String :=
  match callResult with
  | Except.ok resp =>
    Outcome.result false
      ("Success! Order placed. Order Number: " ++ resp.orderNumber ++ " (ID: " ++ resp.id ++ ")")
  | Except.error f =>
    Outcome.result true
      ("Failed to place order. Ensure you have items in cart and are logged in (or provided guest details). Error: Error: " ++
        failureMessage f)

/-! ## Cart tools (part_003; an earlier revision sits in system.ts) -/

/-- A cart line item (`price?.totalPrice` flattened to `priceTotal`,
`price?.unitPrice` to `priceUnit`, `cover?.url` to `coverUrl`,
`payload?.productNumber` to `payloadProductNumber`). -/
structure CartLineItem where
  referencedId : String
  label : String
  quantity : Int
  priceTotal : Option Int
  priceUnit : Option Int
  itemType : String
  coverUrl : Option String
  payloadProductNumber : Option String
deriving DecidableEq, Repr

structure Cart where
  lineItems : Option (List CartLineItem)
  priceTotal : Option Int
deriving DecidableEq, Repr

structure CartItemOut where
  id : String
  name : String
  quantity : Int
  price : Int
  unitPrice : Int
  itemType : String
  imageUrl : Option String
  productNumber : Option String
deriving DecidableEq, Repr

inductive CartBody where
  | message : String → CartBody
  | cart : List CartItemOut → Int → String → CartBody
deriving DecidableEq

/-- The store_cart_get handler (part_003 revision): 403 yields a non-error
log-in message, any other failure is re-thrown. -/
def store_cart_get (callResult : Except HttpFailure Cart) : Outcome CartBody :=
  match callResult with
  | Except.error f =>
    if contains403 f then
      Outcome.result false (CartBody.message
        ("Unable to access cart. The user might not be logged in or the session is invalid. Please ask the user to log in."))
    else Outcome.thrown f
  | Except.ok cart =>
    let items := cart.lineItems.getD []
    if cart.lineItems.isNone || items.isEmpty then
      Outcome.result false (CartBody.message ("The cart is currently empty."))
    else
      let outs := items.map (fun item =>
        { id := item.referencedId
          name := item.label
          quantity := item.quantity
          price := jsOrInt item.priceTotal 0
          unitPrice := jsOrInt item.priceUnit 0
          itemType := item.itemType
          imageUrl := jsOrStrNull item.coverUrl
          productNumber := jsOrStrNull item.payloadProductNumber : CartItemOut })
      Outcome.result false (CartBody.cart outs (jsOrInt cart.priceTotal 0)
        ("Total Items: " ++ toString outs.length ++ " | Total Price: " ++ optIntStr cart.priceTotal))

/-- The earlier store_cart_get revision (embedded in system.ts): no try/catch
at all, so every upstream failure propagates. -/
def store_cart_get_old (callResult : Except HttpFailure Cart) : Outcome CartBody :=
  match callResult with
  | Except.error f => Outcome.thrown f
  | Except.ok cart =>
    let items := cart.lineItems.getD []
    if cart.lineItems.isNone || items.isEmpty then
      Outcome.result false (CartBody.message ("The cart is currently empty."))
    else
      Outcome.result false (CartBody.message
        ("Current Cart (" ++ optIntStr cart.priceTotal ++ " total):\n" ++
          String.intercalate ("\n") (items.map (fun item =>
            "- " ++ toString item.quantity ++ "x " ++ item.label ++ " (" ++ item.itemType ++
              ") - " ++
              (match item.priceTotal with
               | some v => if v = 0 then ("N/A") else toString v
               | none => "N/A")))))

structure CartAddArgs where
  productId : String
  quantity : Int
deriving DecidableEq, Repr

/-- V8 raises a TypeError with this shape when `response.lineItems` is absent
and `.find` is read from `undefined` (the exact wording is engine-specific). -/
def undefinedFindMessage : String :=
  "Cannot read properties of undefined (reading find)"

/-- The store_cart_add handler (part_003 revision).  On success it reports the
REQUESTED quantity and the cart total; the `find` over the returned line items
is computed but never used, so the message is independent of whether the
product actually appears in the returned cart. -/
def store_cart_add (args : CartAddArgs) (callResult : Except HttpFailure Cart) : Outcome String :=
  match callResult with
  | Except.error f =>
    if contains403 f then
      Outcome.result false
        ("Unable to add to cart. The user is not logged in. Please ask the user to log in first.")
    else
      Outcome.result true ("Failed to add product to cart. Error: " ++ failureMessage f)
  | Except.ok cart =>
    match cart.lineItems with
    | none =>
      Outcome.result true ("Failed to add product to cart. Error: " ++ undefinedFindMessage)
    | some items =>
      let _addedItem := items.find? (fun i => i.referencedId == args.productId)
      Outcome.result false
        ("Successfully added " ++ toString args.quantity ++
          "x product to cart. New cart total: " ++ optIntStr cart.priceTotal)

/-- The earlier store_cart_add revision (embedded in system.ts): catch-all
error result, no 403 special case. -/
def store_cart_add_old (args : CartAddArgs) (callResult : Except HttpFailure Cart) : Outcome String :=
  match callResult with
  | Except.error f =>
    Outcome.result true ("Failed to add product to cart. Error: Error: " ++ failureMessage f)
  | Except.ok cart =>
    match cart.lineItems with
    | none =>
      Outcome.result true
        ("Failed to add product to cart. Error: TypeError: " ++ undefinedFindMessage)
    | some items =>
      let _addedItem := items.find? (fun i => i.referencedId == args.productId)
      Outcome.result false
        ("Successfully added " ++ toString args.quantity ++
          "x product to cart. New cart total: " ++ optIntStr cart.priceTotal)

/-! ## Rating-sort well-formedness predicates -/

/-- All ratings appearing in the list are non-negative (true of Shopware
rating averages, which range over 0..5). -/
def ratingOk (p : OutProduct) : Bool :=
  match p.rating with
  | none => true
  | some r => decide (0 ≤ r)

def allNone (l : List OutProduct) : Bool :=
  l.all (fun p => p.rating.isNone)

/-- Every item without a rating sits behind every item with one. -/
def nonesLast : List OutProduct → Bool
  | [] => true
  | p :: rest => if p.rating.isSome then nonesLast rest else allNone rest

/-! ## Category list tool (src/tools/category.ts, in part_000) -/

structure CategoryEntry where
  id : String
  name : Option String
deriving DecidableEq, Repr

structure CategoriesResponse where
  elements : Option (List CategoryEntry)
deriving DecidableEq, Repr

/-- The store_category_list handler: catch-all error-flagged result on any
upstream failure. -/
def store_category_list (callResult : Except HttpFailure CategoriesResponse) : Outcome String :=
  match callResult with
  | Except.error _ => Outcome.result true ("Failed to fetch categories.")
  | Except.ok resp =>
    let els := resp.elements.getD []
    if resp.elements.isNone || els.isEmpty then
      Outcome.result false ("No categories found.")
    else
      Outcome.result false ("Available Categories:\n" ++ String.intercalate ("\n")
        (els.map (fun c => "- " ++ jsOr c.name ("Unknown") ++ " (ID: " ++ c.id ++ ")")))

/-! ## Review tool (src/tools/review.ts) -/

structure RawReview where
  title : Option String
  content : Option String
  points : Option Int
  createdAt : String
deriving DecidableEq, Repr

structure ReviewsResponse where
  elements : Option (List RawReview)
deriving DecidableEq, Repr

def reviewLine (formatDate : String → String) (r : RawReview) : String :=
  "- [" ++ toString (jsOrInt r.points 0) ++ "/5] " ++ jsOr r.title ("No Title") ++
    " (" ++ formatDate r.createdAt ++ "): \"" ++ jsOr r.content ("") ++ "\""

/-- The store_product_reviews handler.  `primary` is the reviews call for the
resolved id; when it succeeds but is empty, the handler falls back (errors
ignored) to the parent's reviews via a product fetch (`productFetch`) and a
second reviews call (`parentReviews`).  A failing primary call is caught by
the outer catch and returned as an error-flagged result; an unresolved id
yields a plain (non-error) "Product not found" text. -/
def store_product_reviews (formatDate : String → String)
    (sOracle : ResolveRequest → Except HttpFailure SearchIdResponse)
    (productId : String)
    (primary : Except HttpFailure ReviewsResponse)
    (productFetch : Except HttpFailure ProductsResponse)
    (parentReviews : Except HttpFailure ReviewsResponse) : Outcome String :=
  match (resolveProductId sOracle productId).1 with
  | none => Outcome.result false ("Product not found: " ++ productId)
  | some _ =>
    match primary with
    | Except.error _ =>
      Outcome.result true ("Failed to fetch reviews for product " ++ productId ++ ".")
    | Except.ok resp0 =>
      let response :=
        if resp0.elements.isNone || (resp0.elements.getD []).isEmpty then
          match productFetch with
          | Except.error _ => resp0
          | Except.ok pres =>
            match (pres.elements.getD []).head? with
            | none => resp0
            | some p =>
              if jsTruthyStr p.parentId then
                match parentReviews with
                | Except.error _ => resp0
                | Except.ok r2 => r2
              else resp0
        else resp0
      if response.elements.isNone || (response.elements.getD []).isEmpty then
        Outcome.result false ("No reviews found for product " ++ productId ++ ".")
      else
        Outcome.result false ("Product Reviews:\n" ++
          String.intercalate ("\n\n") ((response.elements.getD []).map (reviewLine formatDate)))

/-! ## Shipping and payment method tools (src/tools/system.ts) -/

structure MethodEntry where
  name : Option String
  description : Option String
deriving DecidableEq, Repr

structure MethodsResponse where
  elements : Option (List MethodEntry)
deriving DecidableEq, Repr

def methodLine (m : MethodEntry) : String :=
  "- " ++ jsOr m.name ("Unknown") ++ ": " ++ jsOr m.description ("")

/-- The store_get_shipping_methods handler: catch-all error-flagged result on
any upstream failure. -/
def store_get_shipping_methods (callResult : Except HttpFailure MethodsResponse) :
    Outcome String :=
  match callResult with
  | Except.error _ => Outcome.result true ("Failed to fetch shipping methods.")
  | Except.ok resp =>
    let els := resp.elements.getD []
    if resp.elements.isNone || els.isEmpty then
      Outcome.result false ("No shipping methods available.")
    else
      Outcome.result false ("Shipping Methods:\n" ++
        String.intercalate ("\n") (els.map methodLine))

/-- The store_get_payment_methods handler: catch-all error-flagged result on
any upstream failure. -/
def store_get_payment_methods (callResult : Except HttpFailure MethodsResponse) :
    Outcome String :=
  match callResult with
  | Except.error _ => Outcome.result true ("Failed to fetch payment methods.")
  | Except.ok resp =>
    let els := resp.elements.getD []
    if resp.elements.isNone || els.isEmpty then
      Outcome.result false ("No payment methods available.")
    else
      Outcome.result false ("Payment Methods:\n" ++
        String.intercalate ("\n") (els.map methodLine))

/-! ## Concrete fixtures used by counterexamples and witnesses -/

def f403 : HttpFailure :=
  { status := 403, statusText := "Forbidden", body := "" }

def f500 : HttpFailure :=
  { status := 500, statusText := "Internal Server Error", body := "" }

def errOracle : ResolveRequest → Except HttpFailure SearchIdResponse :=
  fun _ => Except.error f500

def skuOracle : ResolveRequest → Except HttpFailure SearchIdResponse :=
  fun _ => Except.ok { elements := some [{ id := "11111111111111111111111111111111" }] }

def skuOracleResp : SearchIdResponse :=
  { elements := some [{ id := "11111111111111111111111111111111" }] }

def fdId : String → String :=
  fun s => s

def emptyRaw : RawProduct :=
  { id := "", productNumber := none, name := none, translatedName := none, parentId := none,
    calculatedPrice := none, availableStock := none, ratingAverage := none, description := none,
    manufacturerName := none, properties := none, options := none }

/-- A variant with no name, no translated name, and a parent id. -/
def c2child : RawProduct :=
  { emptyRaw with
    id := "aaaaaaaaaaaaaaaaaaaaaaaaaaaaaaaa"
    productNumber := some ("SKU1")
    parentId := some ("bbbbbbbbbbbbbbbbbbbbbbbbbbbbbbbb")
    calculatedPrice := some 20
    availableStock := some 5 }

/-- The parent, whose name is "Blue Shirt". -/
def c2parent : RawProduct :=
  { emptyRaw with id := "bbbbbbbbbbbbbbbbbbbbbbbbbbbbbbbb", name := some ("Blue Shirt") }

def c2args : SearchArgs :=
  { term := "shirt", limit := 3, page := 1, sort := none, minPrice := none, maxPrice := none }

def c3q1 : RawProduct := { emptyRaw with id := "q1", name := some ("Q1") }

def c3q2 : RawProduct := { emptyRaw with id := "q2", name := some ("Q2") }

/-- Caller-chosen limit 1 (the schema caps the limit at 3 but has no lower
bound) with an upstream response that carries no total. -/
def c3args : SearchArgs :=
  { term := "x", limit := 1, page := 1, sort := none, minPrice := none, maxPrice := none }

def c3resp : SearchResponse := { elements := some [c3q1, c3q2], total := none }

def c3bargs (pg : Int) : SearchArgs :=
  { term := "x", limit := 3, page := pg, sort := none, minPrice := none, maxPrice := none }

def c3bresp : SearchResponse := { elements := some [c3q1], total := some 7 }

def c7p5 : RawProduct := { emptyRaw with id := "r5", name := some ("P5"), ratingAverage := some 5 }

def c7pn1 : RawProduct := { emptyRaw with id := "n1", name := some ("N1") }

def c7p3 : RawProduct := { emptyRaw with id := "r3", name := some ("P3"), ratingAverage := some 3 }

def c7pn2 : RawProduct := { emptyRaw with id := "n2", name := some ("N2") }

def c7p4 : RawProduct := { emptyRaw with id := "r4", name := some ("P4"), ratingAverage := some 4 }

/-- A page whose ratings are [5, null, 3, null, 4]. -/
def c7resp : SearchResponse :=
  { elements := some [c7p5, c7pn1, c7p3, c7pn2, c7p4], total := some 5 }

def c7args (k : SortKey) : SearchArgs :=
  { term := "x", limit := 3, page := 1, sort := some k, minPrice := none, maxPrice := none }

def c8raw : RawProduct :=
  { emptyRaw with
    id := "d1"
    name := some ("Shirt")
    description := some ("<p>Soft <b>cotton</b></p>") }

def uuidSample : String := "AbCdEf01-2345-6789-aBcD-eF0123456789"

def skuSample : String := "SKU-1"

def skuFoundId : String := "11111111111111111111111111111111"

def wAddArgs : CartAddArgs := { productId := "p1", quantity := 2 }

def wOrderArgs : OrderListArgs := { limit := 3, page := 1 }

/-- A successful cart response in which the requested product does NOT appear
among the line items. -/
def wCart : Cart := { lineItems := some [], priceTotal := some 42 }

def c7w : List OutProduct := [mapProduct [] c7pn1, mapProduct [] c7p3]

def c8wstr : String := "a<b"

def c9args : SearchArgs :=
  { term := "x", limit := 2, page := 1, sort := none, minPrice := none, maxPrice := none }

/-- The pagination object actually reported for `c3args`/`c3resp`. -/
def c3pagX : Pagination := { total := 2, page := 1, limit := 1, hasNextPage := false }

def c8id : String := "cccccccccccccccccccccccccccccccc"

/-! ## Helper lemmas on the 403 substring test -/

theorem charsPrefix_append (pat t : List Char) : charsPrefix pat (pat ++ t) = true := by
  induction pat with
  | nil => rfl
  | cons a as ih => simp [charsPrefix, ih]

theorem charsContains_of_prefix (pat l : List Char) (h : charsPrefix pat l = true) :
    charsContains pat l = true := by
  cases l with
  | nil => simpa [charsContains] using h
  | cons c rest => simp [charsContains, h]

theorem charsContains_append (pat s t : List Char) :
    charsContains pat (s ++ (pat ++ t)) = true := by
  induction s with
  | nil => exact charsContains_of_prefix _ _ (charsPrefix_append pat t)
  | cons c s ih => simp [charsContains, ih]

theorem string_data_append (s t : String) : (s ++ t).data = s.data ++ t.data := by
  cases s
  cases t
  rfl

theorem contains403_of_403 (f : HttpFailure) (h : f.status = 403) : contains403 f = true := by
  have hs : toString f.status = "403" := by rw [h]; rfl
  unfold contains403 failureMessage
  rw [hs]
  simp only [string_data_append, List.append_assoc]
  exact charsContains_append _ _ _

/-! ## Helper lemmas on the rating post-sort -/

theorem all_insertRatingDesc (q : OutProduct → Bool) (x : OutProduct) :
    ∀ acc : List OutProduct, q x = true → acc.all q = true →
      (insertRatingDesc x acc).all q = true := by
  intro acc
  induction acc with
  | nil => intro hx _; simp [insertRatingDesc, hx]
  | cons y ys ih =>
    intro hx hacc
    rw [List.all_cons, Bool.and_eq_true] at hacc
    by_cases hc : ratingKey y.rating < ratingKey x.rating
    · simp [insertRatingDesc, hc, hx, hacc.1, hacc.2]
    · simp [insertRatingDesc, hc, hacc.1, ih hx hacc.2]

theorem all_insertRatingAsc (q : OutProduct → Bool) (x : OutProduct) :
    ∀ acc : List OutProduct, q x = true → acc.all q = true →
      (insertRatingAsc x acc).all q = true := by
  intro acc
  induction acc with
  | nil => intro hx _; simp [insertRatingAsc, hx]
  | cons y ys ih =>
    intro hx hacc
    rw [List.all_cons, Bool.and_eq_true] at hacc
    cases hc : ratingLeAsc y.rating x.rating
    · simp [insertRatingAsc, hc, hx, hacc.1, hacc.2]
    · simp [insertRatingAsc, hc, hacc.1, ih hx hacc.2]

theorem nonesLast_insertRatingDesc (x : OutProduct) (hx : ratingOk x = true) :
    ∀ acc : List OutProduct, acc.all ratingOk = true → nonesLast acc = true →
      nonesLast (insertRatingDesc x acc) = true := by
  intro acc
  induction acc with
  | nil =>
    intro _ _
    cases hr : x.rating with
    | none => simp [insertRatingDesc, nonesLast, allNone, hr]
    | some r => simp [insertRatingDesc, nonesLast, hr]
  | cons y ys ih =>
    intro hacc h
    rw [List.all_cons, Bool.and_eq_true] at hacc
    by_cases hc : ratingKey y.rating < ratingKey x.rating
    · have hx_some : x.rating.isSome = true := by
        cases hr : x.rating with
        | some r => rfl
        | none =>
          exfalso
          cases hy : y.rating with
          | none => rw [hr, hy] at hc; simp [ratingKey] at hc
          | some s =>
            have hsy : (0 : Int) ≤ s := by
              have hy' := hacc.1
              rw [ratingOk, hy] at hy'
              simpa using hy'
            rw [hr, hy] at hc
            simp [ratingKey] at hc
            omega
      simp only [insertRatingDesc, if_pos hc]
      simpa [nonesLast, hx_some] using h
    · cases hy : y.rating with
      | some s =>
        have hys : nonesLast ys = true := by simpa [nonesLast, hy] using h
        simp only [insertRatingDesc, if_neg hc]
        simpa [nonesLast, hy] using ih hacc.2 hys
      | none =>
        have hys_all : allNone ys = true := by simpa [nonesLast, hy] using h
        have hx_none : x.rating.isNone = true := by
          cases hr : x.rating with
          | none => rfl
          | some r =>
            exfalso
            rw [ratingOk, hr] at hx
            rw [hy, hr] at hc
            simp [ratingKey] at hc hx
            omega
        have hall : allNone (insertRatingDesc x ys) = true := by
          have := all_insertRatingDesc (fun p => p.rating.isNone) x ys hx_none
            (by simpa [allNone] using hys_all)
          simpa [allNone] using this
        simp only [insertRatingDesc, if_neg hc]
        simpa [nonesLast, hy] using hall

theorem nonesLast_insertRatingAsc (x : OutProduct) :
    ∀ acc : List OutProduct, nonesLast acc = true →
      nonesLast (insertRatingAsc x acc) = true := by
  intro acc
  induction acc with
  | nil =>
    intro _
    cases hr : x.rating with
    | none => simp [insertRatingAsc, nonesLast, allNone, hr]
    | some r => simp [insertRatingAsc, nonesLast, hr]
  | cons y ys ih =>
    intro h
    cases hc : ratingLeAsc y.rating x.rating
    · have hx_some : x.rating.isSome = true := by
        cases hr : x.rating with
        | some r => rfl
        | none =>
          exfalso
          rw [hr] at hc
          cases hy : y.rating <;> rw [hy] at hc <;> simp [ratingLeAsc] at hc
      simp only [insertRatingAsc, hc, Bool.false_eq_true, if_false]
      simpa [nonesLast, hx_some] using h
    · cases hy : y.rating with
      | some s =>
        have hys : nonesLast ys = true := by simpa [nonesLast, hy] using h
        simp only [insertRatingAsc, hc, if_true]
        simpa [nonesLast, hy] using ih hys
      | none =>
        have hys_all : allNone ys = true := by simpa [nonesLast, hy] using h
        have hx_none : x.rating.isNone = true := by
          cases hr : x.rating with
          | none => rfl
          | some r => rw [hy, hr] at hc; simp [ratingLeAsc] at hc
        have hall : allNone (insertRatingAsc x ys) = true := by
          have := all_insertRatingAsc (fun p => p.rating.isNone) x ys hx_none
            (by simpa [allNone] using hys_all)
          simpa [allNone] using this
        simp only [insertRatingAsc, hc, if_true]
        simpa [nonesLast, hy] using hall

theorem nonesLast_sortRatingDesc_aux :
    ∀ l acc : List OutProduct, l.all ratingOk = true → acc.all ratingOk = true →
      nonesLast acc = true →
      nonesLast (l.foldl (fun a x => insertRatingDesc x a) acc) = true := by
  intro l
  induction l with
  | nil => intro acc _ _ h; simpa using h
  | cons x xs ih =>
    intro acc hl hacc h
    rw [List.all_cons, Bool.and_eq_true] at hl
    rw [List.foldl_cons]
    exact ih _ hl.2 (all_insertRatingDesc _ _ _ hl.1 hacc)
      (nonesLast_insertRatingDesc x hl.1 acc hacc h)

theorem nonesLast_sortRatingDesc (l : List OutProduct) (hl : l.all ratingOk = true) :
    nonesLast (sortRatingDesc l) = true :=
  nonesLast_sortRatingDesc_aux l [] hl rfl rfl

theorem nonesLast_sortRatingAsc_aux :
    ∀ l acc : List OutProduct, nonesLast acc = true →
      nonesLast (l.foldl (fun a x => insertRatingAsc x a) acc) = true := by
  intro l
  induction l with
  | nil => intro acc h; simpa using h
  | cons x xs ih =>
    intro acc h
    rw [List.foldl_cons]
    exact ih _ (nonesLast_insertRatingAsc x acc h)

theorem nonesLast_sortRatingAsc (l : List OutProduct) :
    nonesLast (sortRatingAsc l) = true :=
  nonesLast_sortRatingAsc_aux l [] rfl

/-! ## Lemma for claim C8: the scanner never emits a left angle bracket -/

theorem stripAux_no_lt (b : Bool) (l : List Char) :
    ((stripAux b l).all (fun c => c != '<')) = true := by
  induction l generalizing b with
  | nil => cases b <;> rfl
  | cons c rest ih =>
    cases b
    · by_cases hc : c = '<'
      · simp [stripAux, hc, ih]
      · simp [stripAux, hc, ih]
    · by_cases hc : c = '>'
      · simp [stripAux, hc, ih]
      · simp [stripAux, hc, ih]

/-! ## Claim theorems -/

/-- C4: every input matching the hyphenated 8-4-4-4-12 UUID form or the bare
32-hex form, in any letter case, is returned unchanged by `resolveProductId`,
and no search request is issued. -/
theorem claim4_uuid_passthrough
    (search : ResolveRequest → Except HttpFailure SearchIdResponse) (s : String)
    (h : (matchesUuid s || matchesSimpleUuid s) = true) :
    resolveProductId search s = (some s, []) := by
  simp [resolveProductId, h]

theorem claim4_witness :
    (matchesUuid uuidSample || matchesSimpleUuid uuidSample) = true ∧
    resolveProductId errOracle uuidSample = (some uuidSample, []) :=
  ⟨by decide, claim4_uuid_passthrough errOracle uuidSample (by decide)⟩

/-- C5: for every input matching neither UUID form, `resolveProductId` issues
exactly one search request, filtered by exact equality on `productNumber` with
limit 1; a non-empty result yields the first element's id, while an empty
result or a failing call yields `none` without propagating the failure. -/
theorem claim5_sku_resolution
    (search : ResolveRequest → Except HttpFailure SearchIdResponse) (s : String)
    (h : (matchesUuid s || matchesSimpleUuid s) = false) :
    (resolveProductId search s).2 = [resolveRequestFor s] ∧
    (∀ f, search (resolveRequestFor s) = Except.error f →
      (resolveProductId search s).1 = none) ∧
    (∀ resp, search (resolveRequestFor s) = Except.ok resp → resp.elements.getD [] = [] →
      (resolveProductId search s).1 = none) ∧
    (∀ resp e rest, search (resolveRequestFor s) = Except.ok resp →
      resp.elements = some (e :: rest) → (resolveProductId search s).1 = some e.id) := by
  refine ⟨?_, ?_, ?_, ?_⟩
  · simp only [resolveProductId, h, Bool.false_eq_true, if_false]
    cases search (resolveRequestFor s) with
    | error f => rfl
    | ok resp =>
      obtain ⟨els⟩ := resp
      cases els with
      | none => rfl
      | some l => cases l <;> rfl
  · intro f hf
    simp only [resolveProductId, h, Bool.false_eq_true, if_false]
    rw [hf]
  · intro resp hr he
    simp only [resolveProductId, h, Bool.false_eq_true, if_false]
    rw [hr]
    obtain ⟨els⟩ := resp
    cases els with
    | none => rfl
    | some l =>
      simp only [Option.getD_some] at he
      subst he
      rfl
  · intro resp e rest hr he
    simp only [resolveProductId, h, Bool.false_eq_true, if_false]
    rw [hr]
    simp [he]

theorem claim5_witness :
    (matchesUuid skuSample || matchesSimpleUuid skuSample) = false ∧
    (resolveProductId skuOracle skuSample).2 = [resolveRequestFor skuSample] ∧
    (resolveProductId skuOracle skuSample).1 = some skuFoundId := by
  have h := claim5_sku_resolution skuOracle skuSample (by decide)
  exact ⟨by decide, h.1,
    h.2.2.2 skuOracleResp { id := skuFoundId } [] rfl rfl⟩

/-- C8: the reshaped detail output strips all HTML tag spans from the
description (no tag - indeed no left angle bracket at all - survives the
replace), and in particular the description of `c8raw`,
`<p>Soft <b>cotton</b></p>`, reshapes to `Soft cotton`. -/
theorem claim8_html_strip :
    store_product_detail errOracle c8id (Except.ok { elements := some [c8raw] }) =
      Outcome.result false (DetailBody.detail (productDetailOf c8raw)) ∧
    (productDetailOf c8raw).description = some ("Soft cotton") ∧
    (∀ s : String, ((stripHtml s).data.all (fun c => c != '<')) = true) := by
  refine ⟨by decide, by decide, ?_⟩
  intro s
  exact stripAux_no_lt false s.data

theorem claim8_witness :
    ((stripHtml c8wstr).data.all (fun c => c != '<')) = true :=
  claim8_html_strip.2.2 c8wstr

/-- C10: when the upstream cart call succeeds and the returned cart carries a
`lineItems` array, store_cart_add reports success with the REQUESTED quantity
and the cart total - for ANY such line-item list, in particular one in which
the requested product does not appear. -/
theorem claim10_cart_add_blind_success (args : CartAddArgs) (cart : Cart)
    (items : List CartLineItem) (h : cart.lineItems = some items) :
    store_cart_add args (Except.ok cart) =
      Outcome.result false
        ("Successfully added " ++ toString args.quantity ++
          "x product to cart. New cart total: " ++ optIntStr cart.priceTotal) := by
  simp [store_cart_add, h]

theorem claim10_witness :
    wCart.lineItems = some [] ∧
    store_cart_add wAddArgs (Except.ok wCart) =
      Outcome.result false
        ("Successfully added " ++ toString wAddArgs.quantity ++
          "x product to cart. New cart total: " ++ optIntStr wCart.priceTotal) :=
  ⟨rfl, claim10_cart_add_blind_success wAddArgs wCart [] rfl⟩

/-- C1 (amended): in the final revisions of the cart and order tools
(store_cart_get and store_cart_add of part_003, store_order_list and
store_order_create of src/tools/order.ts), an upstream failure with HTTP
status 403 yields a result with isError false whose text instructs the user
to log in; the earlier store_order_list revision instead flags the 403 result
as an error. -/
theorem claim1_amended_403_login (f : HttpFailure) (cartArgs : CartAddArgs)
    (fd : String → String) (orderArgs : OrderListArgs) (h : f.status = 403) :
    store_cart_get (Except.error f) =
      Outcome.result false (CartBody.message
        ("Unable to access cart. The user might not be logged in or the session is invalid. Please ask the user to log in.")) ∧
    store_cart_add cartArgs (Except.error f) =
      Outcome.result false
        ("Unable to add to cart. The user is not logged in. Please ask the user to log in first.") ∧
    store_order_list fd orderArgs (Except.error f) =
      Outcome.result false (OrderListBody.message
        ("The user is currently NOT logged in. Please ask the user to log in to view their order history.")) ∧
    store_order_create (Except.error f) =
      Outcome.result false
        ("The user is NOT logged in. You cannot place an order until the user logs in. Please ask them to log in.") := by
  have h43 := contains403_of_403 f h
  refine ⟨?_, ?_, ?_, ?_⟩ <;>
    simp [store_cart_get, store_cart_add, store_order_list, store_order_create, h43]

theorem claim1_witness :
    f403.status = 403 ∧
    store_cart_get (Except.error f403) =
      Outcome.result false (CartBody.message
        ("Unable to access cart. The user might not be logged in or the session is invalid. Please ask the user to log in.")) ∧
    store_order_list fdId wOrderArgs (Except.error f403) =
      Outcome.result false (OrderListBody.message
        ("The user is currently NOT logged in. Please ask the user to log in to view their order history.")) := by
  have h := claim1_amended_403_login f403 wAddArgs fdId wOrderArgs rfl
  exact ⟨rfl, h.1, h.2.2.1⟩

/-- C1 counterexample: the earlier store_order_list revision (part_001)
returns the 403 case as an ERROR-flagged result ("Access Denied"), so the
claim that a 403 is never surfaced with isError true fails on it. -/
theorem claim1_counterexample :
    store_order_list_old fdId (Except.error f403) =
      Outcome.result true (OrderListBody.message
        ("Access Denied: You must be logged in to view orders.")) := by
  have h43 := contains403_of_403 f403 rfl
  simp [store_order_list_old, h43]

/-- C6 (amended): handlers with catch-all error handling - store_order_create,
store_cart_add, store_product_listing, store_category_list,
store_product_reviews (for a resolvable id), store_get_shipping_methods and
store_get_payment_methods - surface a non-403 upstream failure as an
error-flagged result with a human-readable message; but store_order_list and
store_cart_get re-throw non-403 failures, the cart revision without try/catch
propagates every failure, and store_product_search and store_product_detail
(which have no try/catch at all) propagate it as an exception. -/
theorem claim6_amended_non403 (f : HttpFailure) (cartArgs : CartAddArgs)
    (fd : String → String) (orderArgs : OrderListArgs) (categoryId : String)
    (pr : Except HttpFailure ProductsResponse) (args : SearchArgs)
    (sOracle : ResolveRequest → Except HttpFailure SearchIdResponse)
    (pfr : Except HttpFailure ProductsResponse)
    (prr : Except HttpFailure ReviewsResponse)
    (h : contains403 f = false) :
    store_order_create (Except.error f) =
      Outcome.result true
        ("Failed to place order. Ensure you have items in cart and are logged in. Error: " ++
          failureMessage f) ∧
    store_cart_add cartArgs (Except.error f) =
      Outcome.result true ("Failed to add product to cart. Error: " ++ failureMessage f) ∧
    store_product_listing categoryId (Except.error f) pr =
      Outcome.result true ("Failed to fetch products for category " ++ categoryId ++ ".") ∧
    store_category_list (Except.error f) =
      Outcome.result true ("Failed to fetch categories.") ∧
    store_product_reviews fd sOracle c8id (Except.error f) pfr prr =
      Outcome.result true ("Failed to fetch reviews for product " ++ c8id ++ ".") ∧
    store_get_shipping_methods (Except.error f) =
      Outcome.result true ("Failed to fetch shipping methods.") ∧
    store_get_payment_methods (Except.error f) =
      Outcome.result true ("Failed to fetch payment methods.") ∧
    store_order_list fd orderArgs (Except.error f) = Outcome.thrown f ∧
    store_cart_get (Except.error f) = Outcome.thrown f ∧
    store_cart_get_old (Except.error f) = Outcome.thrown f ∧
    store_product_search args (Except.error f) pr = Outcome.thrown f ∧
    store_product_detail sOracle c8id (Except.error f) = Outcome.thrown f := by
  have huuid : (matchesUuid c8id || matchesSimpleUuid c8id) = true := by decide
  have hres : (resolveProductId sOracle c8id).1 = some c8id := by
    unfold resolveProductId
    rw [if_pos huuid]
  refine ⟨?_, ?_, ?_, ?_, ?_, ?_, ?_, ?_, ?_, ?_, ?_, ?_⟩
  · simp [store_order_create, h]
  · simp [store_cart_add, h]
  · simp [store_product_listing, h]
  · simp [store_category_list, h]
  · unfold store_product_reviews
    rw [hres]
  · simp [store_get_shipping_methods, h]
  · simp [store_get_payment_methods, h]
  · simp [store_order_list, h]
  · simp [store_cart_get, h]
  · simp [store_cart_get_old, h]
  · simp [store_product_search, h]
  · unfold store_product_detail
    rw [hres]

theorem claim6_witness :
    contains403 f500 = false ∧
    store_order_create (Except.error f500) =
      Outcome.result true
        ("Failed to place order. Ensure you have items in cart and are logged in. Error: " ++
          failureMessage f500) ∧
    store_category_list (Except.error f500) =
      Outcome.result true ("Failed to fetch categories.") ∧
    store_order_list fdId wOrderArgs (Except.error f500) = Outcome.thrown f500 ∧
    store_product_detail errOracle c8id (Except.error f500) = Outcome.thrown f500 := by
  have h := claim6_amended_non403 f500 wAddArgs fdId wOrderArgs ("c")
    (Except.ok { elements := none }) c9args errOracle (Except.ok { elements := none })
    (Except.error f500) (by decide)
  exact ⟨by decide, h.1, h.2.2.2.1, h.2.2.2.2.2.2.2.1, h.2.2.2.2.2.2.2.2.2.2.2⟩

/-- C6 counterexample: a 500 upstream failure in store_order_list is
re-thrown out of the handler instead of being returned as an error-flagged
result, contradicting the claim that upstream failures are never propagated
as exceptions. -/
theorem claim6_counterexample :
    store_order_list fdId wOrderArgs (Except.error f500) = Outcome.thrown f500 := by
  have h : contains403 f500 = false := by decide
  simp [store_order_list, h]

/-- C2 counterexample: for the variant `c2child` (no name, no translated
name, parent id present) whose parent carries the name "Blue Shirt", the
detail view built by store_product_detail leaves the name empty - it is not
"Blue Shirt", because the detail reshaping reads only
`p.name ?? p.translated?.name` and never consults the parent. -/
theorem claim2_counterexample :
    store_product_detail errOracle c2child.id (Except.ok { elements := some [c2child] }) =
      Outcome.result false (DetailBody.detail (productDetailOf c2child)) ∧
    (productDetailOf c2child).name = none ∧
    (productDetailOf c2child).name ≠ some ("Blue Shirt") := by
  refine ⟨by decide, by decide, by decide⟩

/-- C2 (amended): the parent-name fallback applies to the listing views: both
store_product_search and store_product_listing display `c2child` as
"Blue Shirt" after fetching its parent.  The detail view performs no parent
fallback for the name and leaves it absent. -/
theorem claim2_amended_variant_name :
    (mapProduct [c2parent] c2child).name = "Blue Shirt" ∧
    store_product_search c2args (Except.ok { elements := some [c2child], total := some 1 })
        (Except.ok { elements := some [c2parent] }) =
      Outcome.result false (SearchBody.page [mapProduct [c2parent] c2child]
        { total := 1, page := 1, limit := 3, hasNextPage := false }) ∧
    store_product_listing ("cat1") (Except.ok { elements := some [c2child] })
        (Except.ok { elements := some [c2parent] }) =
      Outcome.result false
        ("Products in category:\n- [Blue Shirt] (ID: aaaaaaaaaaaaaaaaaaaaaaaaaaaaaaaa, SKU: SKU1) - Price: 20 - Stock: 5") ∧
    (productDetailOf c2child).name = none := by
  refine ⟨by decide, by decide, by decide, by decide⟩

/-- C7: with sort key rating, rating-desc or rating-asc the page is re-sorted
client-side; the ratings [5, null, 3, null, 4] come out as [5, 4, 3, null,
null] descending and [3, 4, 5, null, null] ascending, and in general (for the
non-negative ratings the upstream produces) items without a rating are placed
last in both directions. -/
theorem claim7_rating_sort :
    store_product_search (c7args SortKey.rating) (Except.ok c7resp) (Except.error f500) =
      Outcome.result false (SearchBody.page
        [mapProduct [] c7p5, mapProduct [] c7p4, mapProduct [] c7p3,
          mapProduct [] c7pn1, mapProduct [] c7pn2]
        { total := 5, page := 1, limit := 3, hasNextPage := true }) ∧
    store_product_search (c7args SortKey.ratingDesc) (Except.ok c7resp) (Except.error f500) =
      Outcome.result false (SearchBody.page
        [mapProduct [] c7p5, mapProduct [] c7p4, mapProduct [] c7p3,
          mapProduct [] c7pn1, mapProduct [] c7pn2]
        { total := 5, page := 1, limit := 3, hasNextPage := true }) ∧
    store_product_search (c7args SortKey.ratingAsc) (Except.ok c7resp) (Except.error f500) =
      Outcome.result false (SearchBody.page
        [mapProduct [] c7p3, mapProduct [] c7p4, mapProduct [] c7p5,
          mapProduct [] c7pn1, mapProduct [] c7pn2]
        { total := 5, page := 1, limit := 3, hasNextPage := true }) ∧
    (∀ l : List OutProduct, l.all ratingOk = true →
      nonesLast (sortRatingDesc l) = true ∧ nonesLast (sortRatingAsc l) = true) := by
  refine ⟨by decide, by decide, by decide, fun l hl =>
    ⟨nonesLast_sortRatingDesc l hl, nonesLast_sortRatingAsc l⟩⟩

theorem claim7_witness :
    c7w.all ratingOk = true ∧
    nonesLast (sortRatingDesc c7w) = true ∧ nonesLast (sortRatingAsc c7w) = true := by
  have h := claim7_rating_sort.2.2.2 c7w (by decide)
  exact ⟨by decide, h.1, h.2⟩

/-- C3 (amended): whenever the upstream response reports a total, the
pagination object of both listing handlers satisfies
`hasNextPage = total > page * limit` on its own reported values; in
particular, total 7 with limit 3 gives hasNextPage true on page 1 and false
on page 3.  (When the upstream omits the total, the code computes
`hasNextPage` from `total ?? 0` while reporting `elements.length` as total.) -/
theorem claim3_amended_pagination :
    (∀ (args : SearchArgs) (sr : SearchResponse) (pr : Except HttpFailure ProductsResponse)
        (t : Int) (pag : Pagination), sr.total = some t →
        searchPag (store_product_search args (Except.ok sr) pr) = some pag →
        pag.hasNextPage = decide (pag.total > pag.page * pag.limit)) ∧
    (∀ (fd : String → String) (args : OrderListArgs) (resp : OrderListResponse)
        (ob : OrdersObj) (t : Int) (pag : Pagination),
        resp.orders = some ob → ob.total = some t →
        orderPag (store_order_list fd args (Except.ok resp)) = some pag →
        pag.hasNextPage = decide (pag.total > pag.page * pag.limit)) ∧
    searchPag (store_product_search (c3bargs 1) (Except.ok c3bresp) (Except.error f500)) =
      some { total := 7, page := 1, limit := 3, hasNextPage := true } ∧
    searchPag (store_product_search (c3bargs 3) (Except.ok c3bresp) (Except.error f500)) =
      some { total := 7, page := 3, limit := 3, hasNextPage := false } := by
  refine ⟨?_, ?_, by decide, by decide⟩
  · intro args sr pr t pag ht hpag
    simp only [store_product_search] at hpag
    split at hpag
    · simp [searchPag] at hpag
    · simp only [searchPag, Option.some.injEq] at hpag
      subst hpag
      simp [ht]
  · intro fd args resp ob t pag hob ht hpag
    simp only [store_order_list] at hpag
    split at hpag
    · simp [orderPag] at hpag
    · simp only [orderPag, Option.some.injEq] at hpag
      subst hpag
      simp [hob, ht]

theorem claim3_witness :
    c3bresp.total = some 7 ∧
    ({ total := 7, page := 1, limit := 3, hasNextPage := true } : Pagination).hasNextPage =
      decide ((7 : Int) > 1 * 3) := by
  have h := claim3_amended_pagination.1 (c3bargs 1) c3bresp (Except.error f500) 7
    { total := 7, page := 1, limit := 3, hasNextPage := true } rfl (by decide)
  exact ⟨rfl, h⟩

/-- C3 counterexample: with an upstream response that carries two elements but
no total (and caller limit 1, page 1), the reported pagination object is
total 2 / page 1 / limit 1 with hasNextPage false, although
`total > page * limit` holds on those reported values - so the claimed
equality fails. -/
theorem claim3_counterexample :
    searchPag (store_product_search c3args (Except.ok c3resp) (Except.error f500)) =
      some c3pagX ∧
    c3pagX.hasNextPage = false ∧
    decide (c3pagX.total > c3pagX.page * c3pagX.limit) = true ∧
    c3pagX.hasNextPage ≠ decide (c3pagX.total > c3pagX.page * c3pagX.limit) := by
  refine ⟨by decide, by decide, by decide, by decide⟩

/-- C9: the upstream search request clamps the limit to `min(args.limit, 3)`,
while the returned pagination object echoes the caller's unclamped limit and
computes hasNextPage from that unclamped limit. -/
theorem claim9_limit_clamp (args : SearchArgs) :
    (searchRequest args).limit = min args.limit 3 ∧
    (∀ (sr : SearchResponse) (pr : Except HttpFailure ProductsResponse) (pag : Pagination),
      searchPag (store_product_search args (Except.ok sr) pr) = some pag →
      pag.limit = args.limit ∧
      pag.hasNextPage = decide (sr.total.getD 0 > args.page * args.limit)) := by
  refine ⟨rfl, ?_⟩
  intro sr pr pag hpag
  simp only [store_product_search] at hpag
  split at hpag
  · simp [searchPag] at hpag
  · simp only [searchPag, Option.some.injEq] at hpag
    subst hpag
    exact ⟨rfl, rfl⟩

theorem claim9_witness :
    (searchRequest c9args).limit = min c9args.limit 3 ∧
    ({ total := 7, page := 1, limit := 2, hasNextPage := true } : Pagination).limit =
      c9args.limit ∧
    ({ total := 7, page := 1, limit := 2, hasNextPage := true } : Pagination).hasNextPage =
      decide (c3bresp.total.getD 0 > c9args.page * c9args.limit) := by
  have h := (claim9_limit_clamp c9args).2 c3bresp (Except.error f500)
    { total := 7, page := 1, limit := 2, hasNextPage := true } (by decide)
  exact ⟨(claim9_limit_clamp c9args).1, h.1, h.2⟩
